import Mathlib

/-!
Verification development for the aws-serverless-resource-cleaner repository.

The two source files `discover_orphans.py` and `cleanup_resources.py` are
shallowly embedded below.  Pure Python logic becomes Lean functions; calls to
the AWS SDK are modelled by passing the data those calls would return as
explicit inputs (a `ClientError` outcome is an `Option`/`Except` failure);
instants are modelled at second granularity by a record of calendar fields,
matching the `%Y-%m-%dT%H:%M:%S` shapes the code manipulates.
-/

set_option autoImplicit false

/-- Model of an aware Python `datetime` in UTC, at second granularity
(microseconds are not modelled; none of the verified properties depend on
sub-second precision). -/
structure PyDateTime where
  year : Nat
  month : Nat
  day : Nat
  hour : Nat
  minute : Nat
  second : Nat
deriving DecidableEq

/-- Field bounds of a representable `datetime` (Python accepts years 1..9999;
day validity is approximated by `day ≤ 31`, ignoring month lengths, which is
immaterial to the verified properties). -/
def PyDateTime.valid (d : PyDateTime) : Bool :=
  decide (1 ≤ d.year) && decide (d.year ≤ 9999) &&
  decide (1 ≤ d.month) && decide (d.month ≤ 12) &&
  decide (1 ≤ d.day) && decide (d.day ≤ 31) &&
  decide (d.hour ≤ 23) && decide (d.minute ≤ 59) && decide (d.second ≤ 59)

/-- Python comparison `a < b` on two aware UTC datetimes: both carry the same
offset, so the comparison is lexicographic on the calendar fields. -/
def pyDateTimeLt (a b : PyDateTime) : Bool :=
  if a.year ≠ b.year then decide (a.year < b.year)
  else if a.month ≠ b.month then decide (a.month < b.month)
  else if a.day ≠ b.day then decide (a.day < b.day)
  else if a.hour ≠ b.hour then decide (a.hour < b.hour)
  else if a.minute ≠ b.minute then decide (a.minute < b.minute)
  else decide (a.second < b.second)

/-- Mixed-radix linearization of a UTC timestamp: for `valid` datetimes it is
strictly monotone in chronological order, so `instantKey a < instantKey b`
states "a is strictly earlier than b" independently of the code's comparison. -/
def instantKey (d : PyDateTime) : Nat :=
  d.year * 35942400 + d.month * 2764800 + d.day * 86400 +
    d.hour * 3600 + d.minute * 60 + d.second

/-- The character for a decimal digit, as produced by Python zero-padded
formatting. -/
def digitChar (n : Nat) : Char := Char.ofNat (48 + n)

/-- Inverse of `digitChar` on ASCII digits, `none` otherwise. -/
def digitToNat (c : Char) : Option Nat :=
  if 48 ≤ c.toNat ∧ c.toNat ≤ 57 then some (c.toNat - 48) else none

/-- The character list of the `%Y-%m-%dT%H:%M:%S` rendering of a datetime,
as produced by `datetime.isoformat()` before any offset suffix. -/
def renderCoreChars (d : PyDateTime) : List Char :=
  [digitChar (d.year / 1000 % 10), digitChar (d.year / 100 % 10),
   digitChar (d.year / 10 % 10), digitChar (d.year % 10), '-',
   digitChar (d.month / 10 % 10), digitChar (d.month % 10), '-',
   digitChar (d.day / 10 % 10), digitChar (d.day % 10), 'T',
   digitChar (d.hour / 10 % 10), digitChar (d.hour % 10), ':',
   digitChar (d.minute / 10 % 10), digitChar (d.minute % 10), ':',
   digitChar (d.second / 10 % 10), digitChar (d.second % 10)]

/-- The `+00:00` offset suffix that `str.replace('Z', '+00:00')` substitutes. -/
def plusSuffix : List Char := ['+', '0', '0', ':', '0', '0']

/-- `datetime.isoformat()` of a whole-second aware UTC datetime. -/
def isoformatUTC (d : PyDateTime) : String := ⟨renderCoreChars d ++ plusSuffix⟩

/-- The ISO-8601 rendering with a trailing `Z` UTC marker, the string shape
AWS APIs deliver and the spec's "trailing Z" representation. -/
def isoformatZ (d : PyDateTime) : String := ⟨renderCoreChars d ++ ['Z']⟩

/-- Python `str.replace('Z', '+00:00')` on the character list. -/
def replaceZChars : List Char → List Char
  | [] => []
  | c :: rest =>
    if c = 'Z' then '+' :: '0' :: '0' :: ':' :: '0' :: '0' :: replaceZChars rest
    else c :: replaceZChars rest

/-- Python `creation_time.replace('Z', '+00:00')`. -/
def pyReplaceZ (s : String) : String := ⟨replaceZChars s.data⟩

/-- Read a two-digit decimal number. -/
def digit2 (a b : Char) : Option Nat := do
  let x ← digitToNat a
  let y ← digitToNat b
  pure (10 * x + y)

/-- Read a four-digit decimal number. -/
def digit4 (a b c d : Char) : Option Nat := do
  let x ← digit2 a b
  let y ← digit2 c d
  pure (100 * x + y)

/-- Assemble a datetime from the fourteen digit characters of a
`%Y-%m-%dT%H:%M:%S` core, validating the field ranges as Python's parsers do;
`none` models a raised `ValueError`. -/
def buildDT (y1 y2 y3 y4 mo1 mo2 d1 d2 h1 h2 mi1 mi2 s1 s2 : Char) :
    Option PyDateTime := do
  let y ← digit4 y1 y2 y3 y4
  let mo ← digit2 mo1 mo2
  let dd ← digit2 d1 d2
  let h ← digit2 h1 h2
  let mi ← digit2 mi1 mi2
  let s ← digit2 s1 s2
  let dt : PyDateTime := ⟨y, mo, dd, h, mi, s⟩
  if dt.valid then some dt else none

/-- Parse a `%Y-%m-%dT%H:%M:%S` core followed by exactly the given suffix;
`none` models a raised `ValueError`. -/
def parseWithSuffix (suffix : List Char) : List Char → Option PyDateTime
  | y1 :: y2 :: y3 :: y4 :: c1 :: mo1 :: mo2 :: c2 :: d1 :: d2 :: c3 ::
      h1 :: h2 :: c4 :: mi1 :: mi2 :: c5 :: s1 :: s2 :: rest =>
    if c1 = '-' ∧ c2 = '-' ∧ c3 = 'T' ∧ c4 = ':' ∧ c5 = ':' ∧ rest = suffix then
      buildDT y1 y2 y3 y4 mo1 mo2 d1 d2 h1 h2 mi1 mi2 s1 s2
    else none
  | _ => none

/-- Model of `datetime.fromisoformat` restricted to the aware UTC form
`YYYY-MM-DDTHH:MM:SS+00:00` that the code's Z-replacement produces.  Other
inputs are mapped to `none`: in Python they either raise `ValueError` or
parse to a naive datetime whose later comparison with the aware cutoff raises
`TypeError` — in both cases an uncaught exception. -/
def fromisoformat (s : String) : Option PyDateTime :=
  parseWithSuffix plusSuffix s.data

/-- Model of `datetime.strptime(s.split('.')[0], '%Y-%m-%dT%H:%M:%S')`
as used on the Lambda `LastModified` string. -/
def pyStrptimeLambda (s : String) : Option PyDateTime :=
  parseWithSuffix [] (s.data.takeWhile (fun c => c ≠ '.'))

/-- A creation-time argument to `is_resource_old`: either an aware datetime
object or an ISO string. -/
inductive Timestamp where
  | dt (d : PyDateTime)
  | str (s : String)
deriving DecidableEq

/-- `OrphanResourceDiscovery.is_resource_old`, literally:

    if isinstance(creation_time, str):
        creation_time = datetime.fromisoformat(creation_time.replace('Z', '+00:00'))
    return creation_time < self.age_threshold_date

`none` models an exception escaping the call. -/
def is_resource_old (t : Timestamp) (age_threshold_date : PyDateTime) :
    Option Bool :=
  match t with
  | .dt d => some (pyDateTimeLt d age_threshold_date)
  | .str s =>
    (fromisoformat (pyReplaceZ s)).map (fun d => pyDateTimeLt d age_threshold_date)

/-- The datetime branch of `is_resource_old`, used by the discovery loops
whose creation times arrive from the SDK as datetime objects. -/
def isOldDT (d age_threshold_date : PyDateTime) : Bool :=
  pyDateTimeLt d age_threshold_date

/-- The fixed marker substring `'serverless'`. -/
def MARKER : String := "serverless"

/-- Python `str.lower()` (names here are ASCII, where `Char.toLower` agrees). -/
def strLower (s : String) : String := ⟨s.data.map Char.toLower⟩

/-- `needle == hay[i:i+len(needle)]` at position 0. -/
def startsWithL : List Char → List Char → Bool
  | [], _ => true
  | _ :: _, [] => false
  | a :: as, b :: bs => a = b && startsWithL as bs

/-- Python substring containment `needle in hay`. -/
def containsSubL (needle : List Char) : List Char → Bool
  | [] => startsWithL needle []
  | c :: t => startsWithL needle (c :: t) || containsSubL needle t

/-- Python `needle in hay` on strings. -/
def pyIn (needle hay : String) : Bool := containsSubL needle.data hay.data

/-- The naming predicate `'serverless' in name.lower()` used by the
discovery filters. -/
def hasMarker (name : String) : Bool := pyIn MARKER (strLower name)

/-- `OrphanResourceDiscovery.DEFAULT_AGE_THRESHOLD_DAYS`. -/
def DEFAULT_AGE_THRESHOLD_DAYS : Int := 90

/-- `OrphanResourceDiscovery.DEFAULT_LAMBDA_INVOCATION_THRESHOLD`. -/
def DEFAULT_LAMBDA_INVOCATION_THRESHOLD : Int := 0

/-- `OrphanResourceDiscovery.DEFAULT_MONITORING_PERIOD_DAYS`. -/
def DEFAULT_MONITORING_PERIOD_DAYS : Int := 30

/-- Python's `x or default` as applied to an optional integer argument:
`None` and `0` are falsy and select the default. -/
def pyOrDefault (x : Option Int) (default : Int) : Int :=
  match x with
  | none => default
  | some v => if v = 0 then default else v

/-- The active threshold configuration fixed in
`OrphanResourceDiscovery.__init__`. -/
structure ThresholdConfig where
  age_threshold_days : Int
  lambda_invocation_threshold : Int
  monitoring_period_days : Int
deriving DecidableEq

/-- The threshold assignments of `OrphanResourceDiscovery.__init__`:

    self.age_threshold_days = age_threshold_days or self.DEFAULT_AGE_THRESHOLD_DAYS
    self.lambda_invocation_threshold = lambda_invocation_threshold or self.DEFAULT_LAMBDA_INVOCATION_THRESHOLD
    self.monitoring_period_days = monitoring_period_days or self.DEFAULT_MONITORING_PERIOD_DAYS
-/
def initThresholds (age lam mon : Option Int) : ThresholdConfig :=
  { age_threshold_days := pyOrDefault age DEFAULT_AGE_THRESHOLD_DAYS,
    lambda_invocation_threshold := pyOrDefault lam DEFAULT_LAMBDA_INVOCATION_THRESHOLD,
    monitoring_period_days := pyOrDefault mon DEFAULT_MONITORING_PERIOD_DAYS }

/-- One entry of a `list_stacks` page, together with the `describe_stacks`
detail the code fetches for matching stacks (the SDK returns these fields). -/
structure StackSummary where
  stackName : String
  creationTime : PyDateTime
  stackStatus : String
  lastUpdatedTime : Option PyDateTime
  description : String
  tags : List (String × String)
deriving DecidableEq

/-- A record of the `stacks` bucket of the findings. -/
structure StackFinding where
  name : String
  creation_time : String
  status : String
  last_updated : Option String
  description : String
  tags : List (String × String)
deriving DecidableEq

/-- The dictionary appended by `discover_stacks` for one matching stack. -/
def mkStackFinding (s : StackSummary) : StackFinding :=
  { name := s.stackName, creation_time := isoformatUTC s.creationTime,
    status := s.stackStatus, last_updated := s.lastUpdatedTime.map isoformatUTC,
    description := s.description, tags := s.tags }

/-- `OrphanResourceDiscovery.discover_stacks`, per region: the listed stack
summaries (pages flattened) are filtered by status, marker and age; matches
become findings in listing order. -/
def discover_stacks (age_threshold_date : PyDateTime)
    (stackList : List StackSummary) : List StackFinding :=
  stackList.filterMap fun s =>
    if s.stackStatus = "DELETE_COMPLETE" then none
    else if hasMarker s.stackName && isOldDT s.creationTime age_threshold_date then
      some (mkStackFinding s)
    else none

/-- One entry of a `list_functions` page (`LastModified` is the raw string the
SDK delivers, e.g. `2020-01-01T00:00:00.000+0000`). -/
structure LambdaFunctionInfo where
  functionName : String
  lastModified : String
  runtime : String
  description : String
  memorySize : Nat
  timeoutSeconds : Nat
deriving DecidableEq

/-- A record of the `lambdas` bucket of the findings. -/
structure LambdaFinding where
  name : String
  runtime : String
  creation_time : String
  description : String
  memory : Nat
  timeout : Nat
deriving DecidableEq

/-- The dictionary appended by `discover_lambdas` for one matching function
(`creation_time` keeps the raw `LastModified` string). -/
def mkLambdaFinding (f : LambdaFunctionInfo) : LambdaFinding :=
  { name := f.functionName, runtime := f.runtime, creation_time := f.lastModified,
    description := f.description, memory := f.memorySize, timeout := f.timeoutSeconds }

/-- `OrphanResourceDiscovery.get_lambda_metrics`: the CloudWatch response is
the list of datapoint `Sum`s for the function (`none` models a `ClientError`);
on success the sums are added, on error the method logs and returns `None`. -/
def get_lambda_metrics (resp : Option (List Rat)) : Option Rat :=
  resp.map (fun datapoints => datapoints.sum)

/-- `OrphanResourceDiscovery.discover_lambdas`, per region: `cw` maps a
function name to its CloudWatch datapoints (`none` = `ClientError` inside
`get_lambda_metrics`).  A `LastModified` string that `strptime` rejects makes
the whole discovery raise (`.error`), as the `ValueError` is not caught. -/
def discover_lambdas (age_threshold_date : PyDateTime)
    (lambda_invocation_threshold : Int) (cw : String → Option (List Rat)) :
    List LambdaFunctionInfo → Except String (List LambdaFinding)
  | [] => .ok []
  | f :: rest =>
    match pyStrptimeLambda f.lastModified with
    | none => .error f.lastModified
    | some lastModified =>
      match discover_lambdas age_threshold_date lambda_invocation_threshold cw rest with
      | .error e => .error e
      | .ok out =>
        if isOldDT lastModified age_threshold_date then
          match get_lambda_metrics (cw f.functionName) with
          | some invocations =>
            if invocations ≤ (lambda_invocation_threshold : Rat) then
              .ok (mkLambdaFinding f :: out)
            else .ok out
          | none => .ok out
        else .ok out

/-- One entry of a `list_buckets` response. -/
structure BucketInfo where
  name : String
  creationDate : PyDateTime
deriving DecidableEq

/-- A record of the `s3_buckets` bucket of the findings. -/
structure BucketFinding where
  name : String
  creation_time : String
deriving DecidableEq

/-- The dictionary appended by `discover_s3_buckets` for one matching bucket. -/
def mkBucketFinding (b : BucketInfo) : BucketFinding :=
  { name := b.name, creation_time := isoformatUTC b.creationDate }

/-- `OrphanResourceDiscovery.discover_s3_buckets` (S3 is global): buckets are
filtered by marker and age. -/
def discover_s3_buckets (age_threshold_date : PyDateTime)
    (buckets : List BucketInfo) : List BucketFinding :=
  buckets.filterMap fun b =>
    if hasMarker b.name && isOldDT b.creationDate age_threshold_date then
      some (mkBucketFinding b)
    else none

/-- One entry of a `get_rest_apis` response. -/
structure RestApiInfo where
  id : String
  name : String
  createdDate : PyDateTime
  description : String
deriving DecidableEq

/-- A record of the `api_gateways` bucket of the findings: discovery stores
both the opaque `id` and the human `name`. -/
structure ApiFinding where
  id : String
  name : String
  creation_time : String
  description : String
deriving DecidableEq

/-- The dictionary appended by `discover_api_gateways` for one matching API. -/
def mkApiFinding (a : RestApiInfo) : ApiFinding :=
  { id := a.id, name := a.name, creation_time := isoformatUTC a.createdDate,
    description := a.description }

/-- `OrphanResourceDiscovery.discover_api_gateways`, per region: APIs are
filtered by marker (on `name`) and age. -/
def discover_api_gateways (age_threshold_date : PyDateTime)
    (apis : List RestApiInfo) : List ApiFinding :=
  apis.filterMap fun a =>
    if hasMarker a.name && isOldDT a.createdDate age_threshold_date then
      some (mkApiFinding a)
    else none

/-- One listed DynamoDB table name with its `describe_table` detail. -/
structure TableInfo where
  tableName : String
  creationDateTime : PyDateTime
  tableStatus : String
  tableSizeBytes : Nat
  itemCount : Nat
deriving DecidableEq

/-- A record of the `dynamodb_tables` bucket of the findings. -/
structure TableFinding where
  name : String
  creation_time : String
  status : String
  size_bytes : Nat
  item_count : Nat
deriving DecidableEq

/-- The dictionary appended by `discover_dynamodb_tables` for one matching
table. -/
def mkTableFinding (t : TableInfo) : TableFinding :=
  { name := t.tableName, creation_time := isoformatUTC t.creationDateTime,
    status := t.tableStatus, size_bytes := t.tableSizeBytes,
    item_count := t.itemCount }

/-- `OrphanResourceDiscovery.discover_dynamodb_tables`, per region: the name
is checked for the marker first, then the described table's creation time is
checked for age. -/
def discover_dynamodb_tables (age_threshold_date : PyDateTime)
    (tables : List TableInfo) : List TableFinding :=
  tables.filterMap fun t =>
    if hasMarker t.tableName then
      if isOldDT t.creationDateTime age_threshold_date then
        some (mkTableFinding t)
      else none
    else none

/-- A report entry as read back from JSON, for the four kinds that
`cleanup_resources` matches on their `name` field. -/
structure NamedEntry where
  name : String
deriving DecidableEq

/-- An `api_gateways` report entry as read back from JSON: it carries both
`id` and `name`, and `cleanup_resources` matches on `id`. -/
structure ApiEntry where
  id : String
  name : String
deriving DecidableEq

/-- The parsed report dictionary.  A field holds `none` when the
corresponding key is absent from the JSON (the Lean name `stacks_` stands for
the JSON key `stacks`, which Lean reserves as a token). -/
structure Report where
  stacks_ : Option (List NamedEntry)
  s3_buckets : Option (List NamedEntry)
  lambdas : Option (List NamedEntry)
  api_gateways : Option (List ApiEntry)
  dynamodb_tables : Option (List NamedEntry)
deriving DecidableEq

/-- A report in which every expected kind-bucket key is present. -/
def mkReport (st bu la : List NamedEntry) (ap : List ApiEntry)
    (dy : List NamedEntry) : Report :=
  { stacks_ := some st, s3_buckets := some bu, lambdas := some la,
    api_gateways := some ap, dynamodb_tables := some dy }

/-- The `results` dictionary of `cleanup_resources`: ordered lists of
`(resource_type, resource_id)` pairs. -/
structure CleanupResults where
  successful : List (String × String)
  failed : List (String × String)
deriving DecidableEq

/-- The initial `results` dictionary. -/
def emptyResults : CleanupResults := { successful := [], failed := [] }

/-- An uncaught Python exception inside `cleanup_resources`. -/
inductive PyError where
  | jsonDecodeError
  | keyError (key : String)
deriving DecidableEq

/-- The outcome of opening and JSON-decoding the report file. -/
inductive ReadResult where
  | notFound
  | badJson
  | parsed (r : Report)
deriving DecidableEq

/-- The observable outcome of one `cleanup_resources` call:
`fileNotFound` = the caught `FileNotFoundError` branch (message printed, no
deletions); `crashed` = an uncaught exception escaped after the recorded
results had been accumulated; `completed` = the results were printed. -/
inductive CleanupOutcome where
  | fileNotFound
  | crashed (resultsSoFar : CleanupResults) (e : PyError)
  | completed (results : CleanupResults)
deriving DecidableEq

/-- One deletion attempt: the corresponding `delete_*` helper is called and
its boolean outcome routes the `(resource_type, resource_id)` pair into
`successful` or `failed`.  `del` is the deletion oracle standing for the AWS
calls (`False` = a caught `ClientError`). -/
def recordAttempt (del : String → String → Bool) (kind rid : String)
    (st : CleanupResults) : CleanupResults :=
  if del kind rid then { st with successful := st.successful ++ [(kind, rid)] }
  else { st with failed := st.failed ++ [(kind, rid)] }

/-- One `for entry in report[key]: if entry[field] == resource_id: ...` loop,
given the list of identifier-field values of the bucket's entries. -/
def scanEntries (del : String → String → Bool) (kind rid : String) :
    List String → CleanupResults → CleanupResults
  | [], st => st
  | k :: ks, st =>
    scanEntries del kind rid ks
      (if k = rid then recordAttempt del kind rid st else st)

/-- The body of `cleanup_resources` after the file was read and parsed: for
each supplied identifier the five buckets are scanned in source order; a
missing bucket key raises `KeyError` at its access, keeping the results
accumulated so far. -/
def cleanupLoop (del : String → String → Bool) (r : Report) :
    List String → CleanupResults → CleanupResults × Option PyError
  | [], st => (st, none)
  | rid :: rest, st =>
    match r.stacks_ with
    | none => (st, some (PyError.keyError ("stacks")))
    | some stackEntries =>
      let st := scanEntries del ("stack") rid (stackEntries.map NamedEntry.name) st
      match r.s3_buckets with
      | none => (st, some (PyError.keyError ("s3_buckets")))
      | some bucketEntries =>
        let st := scanEntries del ("s3_bucket") rid (bucketEntries.map NamedEntry.name) st
        match r.lambdas with
        | none => (st, some (PyError.keyError ("lambdas")))
        | some lambdaEntries =>
          let st := scanEntries del ("lambda") rid (lambdaEntries.map NamedEntry.name) st
          match r.api_gateways with
          | none => (st, some (PyError.keyError ("api_gateways")))
          | some apiEntries =>
            let st := scanEntries del ("api_gateway") rid (apiEntries.map ApiEntry.id) st
            match r.dynamodb_tables with
            | none => (st, some (PyError.keyError ("dynamodb_tables")))
            | some tableEntries =>
              let st := scanEntries del ("dynamodb") rid (tableEntries.map NamedEntry.name) st
              cleanupLoop del r rest st

/-- `ResourceCleaner.cleanup_resources`: only `FileNotFoundError` is caught;
a JSON decode error or a missing bucket key escapes as an uncaught
exception. -/
def cleanup_resources (del : String → String → Bool) (file : ReadResult)
    (resource_ids : List String) : CleanupOutcome :=
  match file with
  | .notFound => .fileNotFound
  | .badJson => .crashed emptyResults PyError.jsonDecodeError
  | .parsed r =>
    match cleanupLoop del r resource_ids emptyResults with
    | (st, none) => .completed st
    | (st, some e) => .crashed st e

/-- Occurrence count of an element in a list (Python list semantics;
kept self-contained to ease induction). -/
def countEq {α : Type} [DecidableEq α] : List α → α → Nat
  | [], _ => 0
  | b :: t, a => (if a = b then 1 else 0) + countEq t a

/-- Number of deletion attempts recorded for a `(resource_type, resource_id)`
pair: every attempt lands in exactly one of the two result lists. -/
def attemptCount (st : CleanupResults) (p : String × String) : Nat :=
  countEq st.successful p + countEq st.failed p

/-- How many entries of the report bucket for kind tag `k` match identifier
`x`: the `name` field for stacks, S3 buckets, Lambda functions and DynamoDB
tables, the `id` field for API gateways. -/
def bucketMatches (st bu la : List NamedEntry) (ap : List ApiEntry)
    (dy : List NamedEntry) (k x : String) : Nat :=
  (if k = ("stack") then countEq (st.map NamedEntry.name) x else 0) +
  (if k = ("s3_bucket") then countEq (bu.map NamedEntry.name) x else 0) +
  (if k = ("lambda") then countEq (la.map NamedEntry.name) x else 0) +
  (if k = ("api_gateway") then countEq (ap.map ApiEntry.id) x else 0) +
  (if k = ("dynamodb") then countEq (dy.map NamedEntry.name) x else 0)

/-- A deletion oracle that always succeeds. -/
def delTrue : String → String → Bool := fun _ _ => true

/-- Every attempt pair recorded by one cleanup invocation, in the two result
lists (each delete call lands in exactly one of them). -/
def recordedAttempts (res : CleanupResults) : List (String × String) :=
  res.successful ++ res.failed

/-- The five bucket scans `cleanup_resources` performs for one supplied
identifier, in source order. -/
def scan5 (del : String → String → Bool) (st bu la : List NamedEntry)
    (ap : List ApiEntry) (dy : List NamedEntry) (rid : String)
    (acc : CleanupResults) : CleanupResults :=
  scanEntries del ("dynamodb") rid (dy.map NamedEntry.name)
    (scanEntries del ("api_gateway") rid (ap.map ApiEntry.id)
      (scanEntries del ("lambda") rid (la.map NamedEntry.name)
        (scanEntries del ("s3_bucket") rid (bu.map NamedEntry.name)
          (scanEntries del ("stack") rid (st.map NamedEntry.name) acc))))

/-- An example instant: 2020-01-01T00:00:00 UTC. -/
def dtOld : PyDateTime := ⟨2020, 1, 1, 0, 0, 0⟩

/-- An example age cutoff: 2024-06-01T00:00:00 UTC. -/
def dtCutoff : PyDateTime := ⟨2024, 6, 1, 0, 0, 0⟩

/-- An example stack whose name carries the marker. -/
def stackMarker : StackSummary :=
  { stackName := "serverless-app-dev", creationTime := dtOld,
    stackStatus := "CREATE_COMPLETE", lastUpdatedTime := none,
    description := "", tags := [] }

/-- An example Lambda function whose name lacks the marker. -/
def lamNoMarker : LambdaFunctionInfo :=
  { functionName := "billing-batch",
    lastModified := "2020-01-01T00:00:00.000+0000",
    runtime := "python3.9", description := "", memorySize := 128,
    timeoutSeconds := 30 }

/-- A CloudWatch oracle that reports an empty datapoint list (total 0) for
every function. -/
def cwZero : String → Option (List Rat) := fun _ => some []

/-- An example Lambda function whose metrics query succeeds. -/
def lamGood : LambdaFunctionInfo :=
  { functionName := "iot-core-sync",
    lastModified := "2019-03-04T05:06:07.000+0000",
    runtime := "python3.8", description := "", memorySize := 256,
    timeoutSeconds := 60 }

/-- An example Lambda function whose metrics query raises `ClientError`. -/
def lamBad : LambdaFunctionInfo :=
  { functionName := "press-relay",
    lastModified := "2018-01-02T03:04:05.000+0000",
    runtime := "python3.8", description := "", memorySize := 128,
    timeoutSeconds := 10 }

/-- A CloudWatch oracle that succeeds only for `iot-core-sync`. -/
def cwPick : String → Option (List Rat) :=
  fun n => if n = ("iot-core-sync") then some [] else none

/-- A report whose `lambdas` key is missing but whose `stacks` bucket holds a
matching entry. -/
def rMissingLambdas : Report :=
  { stacks_ := some [⟨"serverless-app-dev"⟩], s3_buckets := some [],
    lambdas := none, api_gateways := some [], dynamodb_tables := some [] }

/-- A report whose `stacks` key is missing. -/
def rNoStacks : Report :=
  { stacks_ := none, s3_buckets := some [], lambdas := some [],
    api_gateways := some [], dynamodb_tables := some [] }

/-- The results of deleting one stack entry once. -/
def rsC5 : CleanupResults :=
  { successful := [(("stack"), ("serverless-app-dev"))], failed := [] }

/-- The results of deleting one identically-named bucket and function. -/
def rsC7 : CleanupResults :=
  { successful := [(("s3_bucket"), ("my-bucket")), (("lambda"), ("my-bucket"))],
    failed := [] }

theorem digit_round : ∀ k < 10, digitToNat (digitChar k) = some k := by decide

theorem digitToNat_digitChar_mod (x : Nat) :
    digitToNat (digitChar (x % 10)) = some (x % 10) :=
  digit_round (x % 10) (Nat.mod_lt x (by omega))

theorem digitChar_lt_ne_Z : ∀ k < 10, digitChar k ≠ 'Z' := by decide

theorem digitChar_mod_ne_Z (x : Nat) : digitChar (x % 10) ≠ 'Z' :=
  digitChar_lt_ne_Z (x % 10) (Nat.mod_lt x (by omega))

theorem Z_not_mem_renderCore (d : PyDateTime) : 'Z' ∉ renderCoreChars d := by
  intro h
  simp only [renderCoreChars, List.mem_cons, List.not_mem_nil, or_false] at h
  rcases h with h|h|h|h|h|h|h|h|h|h|h|h|h|h|h|h|h|h|h
  all_goals first
    | exact digitChar_mod_ne_Z _ h.symm
    | exact absurd h (by decide)

theorem replaceZ_append_Z (l : List Char) (h : 'Z' ∉ l) :
    replaceZChars (l ++ ['Z']) = l ++ plusSuffix := by
  induction l with
  | nil => rfl
  | cons c t ih =>
    have hc : c ≠ 'Z' := fun hh => h (hh ▸ List.mem_cons_self c t)
    have ht : 'Z' ∉ t := fun hm => h (List.mem_cons_of_mem c hm)
    show (if c = 'Z' then
        '+' :: '0' :: '0' :: ':' :: '0' :: '0' :: replaceZChars (t ++ ['Z'])
      else c :: replaceZChars (t ++ ['Z'])) = c :: (t ++ plusSuffix)
    rw [if_neg hc, ih ht]

theorem valid_bounds {d : PyDateTime} (h : d.valid = true) :
    1 ≤ d.year ∧ d.year ≤ 9999 ∧ 1 ≤ d.month ∧ d.month ≤ 12 ∧ 1 ≤ d.day ∧
      d.day ≤ 31 ∧ d.hour ≤ 23 ∧ d.minute ≤ 59 ∧ d.second ≤ 59 := by
  simp only [PyDateTime.valid, Bool.and_eq_true, decide_eq_true_eq] at h
  tauto

theorem fromiso_roundtrip (d : PyDateTime) (hd : d.valid = true) :
    fromisoformat (pyReplaceZ (isoformatZ d)) = some d := by
  obtain ⟨h1, h2, h3, h4, h5, h6, h7, h8, h9⟩ := valid_bounds hd
  show parseWithSuffix plusSuffix
    (replaceZChars (renderCoreChars d ++ ['Z'])) = some d
  rw [replaceZ_append_Z _ (Z_not_mem_renderCore d)]
  simp only [renderCoreChars, List.cons_append, List.nil_append]
  simp only [parseWithSuffix]
  rw [if_pos (by simp)]
  simp only [buildDT, digit4, digit2, digitToNat_digitChar_mod, Option.some_bind,
    Option.bind_eq_bind, Option.pure_def]
  have hY : 100 * (10 * (d.year / 1000 % 10) + d.year / 100 % 10) +
      (10 * (d.year / 10 % 10) + d.year % 10) = d.year := by omega
  have hMo : 10 * (d.month / 10 % 10) + d.month % 10 = d.month := by omega
  have hD : 10 * (d.day / 10 % 10) + d.day % 10 = d.day := by omega
  have hH : 10 * (d.hour / 10 % 10) + d.hour % 10 = d.hour := by omega
  have hMi : 10 * (d.minute / 10 % 10) + d.minute % 10 = d.minute := by omega
  have hS : 10 * (d.second / 10 % 10) + d.second % 10 = d.second := by omega
  rw [hY, hMo, hD, hH, hMi, hS]
  have he : (⟨d.year, d.month, d.day, d.hour, d.minute, d.second⟩ : PyDateTime) = d := rfl
  rw [he, hd]
  rfl

theorem pyDateTimeLt_iff_instantKey {a b : PyDateTime} (ha : a.valid = true)
    (hb : b.valid = true) :
    pyDateTimeLt a b = true ↔ instantKey a < instantKey b := by
  obtain ⟨a1, a2, a3, a4, a5, a6, a7, a8, a9⟩ := valid_bounds ha
  obtain ⟨b1, b2, b3, b4, b5, b6, b7, b8, b9⟩ := valid_bounds hb
  unfold pyDateTimeLt instantKey
  split_ifs with hh1 hh2 hh3 hh4 hh5 <;> simp only [decide_eq_true_eq] <;> omega

theorem mem_discover_stacks {cutoff : PyDateTime} {stackList : List StackSummary}
    {g : StackFinding} (h : g ∈ discover_stacks cutoff stackList) :
    ∃ s, s ∈ stackList ∧ s.stackStatus ≠ ("DELETE_COMPLETE") ∧
      hasMarker s.stackName = true ∧ isOldDT s.creationTime cutoff = true ∧
      g = mkStackFinding s := by
  rw [discover_stacks, List.mem_filterMap] at h
  obtain ⟨s, hs, hf⟩ := h
  refine ⟨s, hs, ?_⟩
  by_cases h1 : s.stackStatus = ("DELETE_COMPLETE")
  · rw [if_pos h1] at hf; cases hf
  · rw [if_neg h1] at hf
    by_cases h2 : (hasMarker s.stackName && isOldDT s.creationTime cutoff) = true
    · rw [if_pos h2] at hf
      obtain ⟨hm, ho⟩ := Bool.and_eq_true_iff.mp h2
      injection hf with hf
      exact ⟨h1, hm, ho, hf.symm⟩
    · rw [if_neg h2] at hf; cases hf

theorem mem_discover_s3_buckets {cutoff : PyDateTime} {buckets : List BucketInfo}
    {g : BucketFinding} (h : g ∈ discover_s3_buckets cutoff buckets) :
    ∃ b, b ∈ buckets ∧ hasMarker b.name = true ∧
      isOldDT b.creationDate cutoff = true ∧ g = mkBucketFinding b := by
  rw [discover_s3_buckets, List.mem_filterMap] at h
  obtain ⟨b, hb, hf⟩ := h
  refine ⟨b, hb, ?_⟩
  by_cases h2 : (hasMarker b.name && isOldDT b.creationDate cutoff) = true
  · rw [if_pos h2] at hf
    obtain ⟨hm, ho⟩ := Bool.and_eq_true_iff.mp h2
    injection hf with hf
    exact ⟨hm, ho, hf.symm⟩
  · rw [if_neg h2] at hf; cases hf

theorem mem_discover_api_gateways {cutoff : PyDateTime} {apis : List RestApiInfo}
    {g : ApiFinding} (h : g ∈ discover_api_gateways cutoff apis) :
    ∃ a, a ∈ apis ∧ hasMarker a.name = true ∧
      isOldDT a.createdDate cutoff = true ∧ g = mkApiFinding a := by
  rw [discover_api_gateways, List.mem_filterMap] at h
  obtain ⟨a, ha, hf⟩ := h
  refine ⟨a, ha, ?_⟩
  by_cases h2 : (hasMarker a.name && isOldDT a.createdDate cutoff) = true
  · rw [if_pos h2] at hf
    obtain ⟨hm, ho⟩ := Bool.and_eq_true_iff.mp h2
    injection hf with hf
    exact ⟨hm, ho, hf.symm⟩
  · rw [if_neg h2] at hf; cases hf

theorem mem_discover_dynamodb_tables {cutoff : PyDateTime} {tables : List TableInfo}
    {g : TableFinding} (h : g ∈ discover_dynamodb_tables cutoff tables) :
    ∃ t, t ∈ tables ∧ hasMarker t.tableName = true ∧
      isOldDT t.creationDateTime cutoff = true ∧ g = mkTableFinding t := by
  rw [discover_dynamodb_tables, List.mem_filterMap] at h
  obtain ⟨t, ht, hf⟩ := h
  refine ⟨t, ht, ?_⟩
  by_cases h1 : hasMarker t.tableName = true
  · rw [if_pos h1] at hf
    by_cases h2 : isOldDT t.creationDateTime cutoff = true
    · rw [if_pos h2] at hf
      injection hf with hf
      exact ⟨h1, h2, hf.symm⟩
    · rw [if_neg h2] at hf; cases hf
  · rw [if_neg h1] at hf; cases hf

theorem mem_discover_lambdas {cutoff : PyDateTime} {t : Int}
    {cw : String → Option (List Rat)} :
    ∀ {fns : List LambdaFunctionInfo} {out : List LambdaFinding}
      {g : LambdaFinding},
      discover_lambdas cutoff t cw fns = .ok out → g ∈ out →
      ∃ f, f ∈ fns ∧
        (∃ lm, pyStrptimeLambda f.lastModified = some lm ∧
          isOldDT lm cutoff = true) ∧
        (∃ dps, cw f.functionName = some dps ∧ dps.sum ≤ (t : Rat)) ∧
        g = mkLambdaFinding f := by
  intro fns
  induction fns with
  | nil =>
    intro out g h hg
    rw [discover_lambdas] at h
    injection h with h
    rw [← h] at hg
    cases hg
  | cons f rest ih =>
    intro out g h hg
    rw [discover_lambdas] at h
    split at h
    next hp => exact Except.noConfusion h
    next lm hp =>
      split at h
      next e hr => exact Except.noConfusion h
      next out' hr =>
        have tail : g ∈ out' →
            ∃ f', f' ∈ f :: rest ∧
              (∃ lm', pyStrptimeLambda f'.lastModified = some lm' ∧
                isOldDT lm' cutoff = true) ∧
              (∃ dps, cw f'.functionName = some dps ∧ dps.sum ≤ (t : Rat)) ∧
              g = mkLambdaFinding f' := by
          intro hg'
          obtain ⟨f', h1, h2, h3, h4⟩ := ih hr hg'
          exact ⟨f', List.mem_cons_of_mem f h1, h2, h3, h4⟩
        split at h
        · split at h
          next invocations hmet =>
            rcases hcw : cw f.functionName with _ | dps
            · rw [show get_lambda_metrics (cw f.functionName) = none from by
                rw [hcw]; rfl] at hmet
              exact Option.noConfusion hmet
            · have hsum : dps.sum = invocations := by
                rw [show get_lambda_metrics (cw f.functionName) = some dps.sum from by
                  rw [hcw]; rfl] at hmet
                injection hmet
              split at h
              next hinv =>
                injection h with h
                rw [← h] at hg
                cases hg with
                | head =>
                  refine ⟨f, List.mem_cons_self f rest, ⟨lm, hp, ?_⟩,
                    ⟨dps, hcw, by rw [hsum]; exact hinv⟩, rfl⟩
                  assumption
                | tail _ hg' => exact tail hg'
              next hinv =>
                injection h with h
                rw [← h] at hg
                exact tail hg
          next hmet =>
            injection h with h
            rw [← h] at hg
            exact tail hg
        · injection h with h
          rw [← h] at hg
          exact tail hg

theorem countEq_append {α : Type} [DecidableEq α] (l1 l2 : List α) (a : α) :
    countEq (l1 ++ l2) a = countEq l1 a + countEq l2 a := by
  induction l1 with
  | nil => simp [countEq]
  | cons b tl ih =>
    show countEq (b :: (tl ++ l2)) a = countEq (b :: tl) a + countEq l2 a
    simp only [countEq, ih]
    omega

theorem countEq_pos {α : Type} [DecidableEq α] {l : List α} {a : α} :
    0 < countEq l a ↔ a ∈ l := by
  induction l with
  | nil => simp [countEq]
  | cons b tl ih =>
    simp only [countEq, List.mem_cons]
    constructor
    · intro h
      by_cases hb : a = b
      · exact Or.inl hb
      · rw [if_neg hb] at h
        exact Or.inr (ih.mp (by omega))
    · intro h
      rcases h with h | h
      · rw [if_pos h]; omega
      · have := ih.mpr h; omega

theorem attemptCount_eq_countEq (res : CleanupResults) (p : String × String) :
    attemptCount res p = countEq (recordedAttempts res) p := by
  rw [recordedAttempts, countEq_append, attemptCount]

theorem attemptCount_recordAttempt (del : String → String → Bool)
    (kind rid : String) (acc : CleanupResults) (p : String × String) :
    attemptCount (recordAttempt del kind rid acc) p =
      attemptCount acc p + (if p = (kind, rid) then 1 else 0) := by
  unfold recordAttempt attemptCount
  cases hdel : del kind rid <;> simp [countEq_append, countEq] <;> omega

theorem attemptCount_scanEntries (del : String → String → Bool)
    (kind rid : String) :
    ∀ (ks : List String) (acc : CleanupResults) (p : String × String),
      attemptCount (scanEntries del kind rid ks acc) p =
        attemptCount acc p + (if p = (kind, rid) then countEq ks rid else 0) := by
  intro ks
  induction ks with
  | nil => intro acc p; simp [scanEntries, countEq]
  | cons k tl ih =>
    intro acc p
    rw [scanEntries, ih]
    by_cases hk : k = rid
    · rw [if_pos hk, attemptCount_recordAttempt]
      have hcnt : countEq (k :: tl) rid = 1 + countEq tl rid := by
        simp [countEq, hk]
      rw [hcnt]
      by_cases hp : p = (kind, rid)
      · simp only [if_pos hp]; omega
      · simp only [if_neg hp]
    · rw [if_neg hk]
      have hcnt : countEq (k :: tl) rid = countEq tl rid := by
        simp only [countEq]
        rw [if_neg (fun hh => hk (hh.symm))]
        omega
      rw [hcnt]

theorem attemptCount_scan5 (del : String → String → Bool)
    (st bu la : List NamedEntry) (ap : List ApiEntry) (dy : List NamedEntry)
    (rid : String) (acc : CleanupResults) (k x : String) :
    attemptCount (scan5 del st bu la ap dy rid acc) (k, x) =
      attemptCount acc (k, x) +
        (if x = rid then bucketMatches st bu la ap dy k x else 0) := by
  unfold scan5
  rw [attemptCount_scanEntries, attemptCount_scanEntries,
    attemptCount_scanEntries, attemptCount_scanEntries, attemptCount_scanEntries]
  by_cases hx : x = rid
  · subst hx
    simp only [Prod.mk.injEq, eq_self_iff_true, and_true, if_true]
    unfold bucketMatches
    omega
  · have hne : ∀ tag : String, ¬ ((k, x) = (tag, rid)) :=
      fun tag hh => hx (congrArg Prod.snd hh)
    rw [if_neg (hne _), if_neg (hne _), if_neg (hne _), if_neg (hne _),
      if_neg (hne _), if_neg hx]

theorem cleanupLoop_mkReport (del : String → String → Bool)
    (st bu la : List NamedEntry) (ap : List ApiEntry) (dy : List NamedEntry) :
    ∀ (rids : List String) (acc : CleanupResults),
      (cleanupLoop del (mkReport st bu la ap dy) rids acc).2 = none ∧
      ∀ k x : String,
        attemptCount (cleanupLoop del (mkReport st bu la ap dy) rids acc).1 (k, x) =
          attemptCount acc (k, x) +
            countEq rids x * bucketMatches st bu la ap dy k x := by
  intro rids
  induction rids with
  | nil =>
    intro acc
    refine ⟨rfl, fun k x => ?_⟩
    simp [cleanupLoop, countEq]
  | cons rid rest ih =>
    intro acc
    have step : cleanupLoop del (mkReport st bu la ap dy) (rid :: rest) acc =
        cleanupLoop del (mkReport st bu la ap dy) rest
          (scan5 del st bu la ap dy rid acc) := rfl
    rw [step]
    refine ⟨(ih _).1, fun k x => ?_⟩
    rw [(ih _).2 k x, attemptCount_scan5]
    have hcnt : countEq (rid :: rest) x =
        (if x = rid then 1 else 0) + countEq rest x := rfl
    rw [hcnt]
    by_cases hx : x = rid
    · rw [if_pos hx, if_pos hx, Nat.add_mul, Nat.one_mul]
      omega
    · rw [if_neg hx, if_neg hx, Nat.zero_add]
      omega

theorem cleanup_completed_results (del : String → String → Bool)
    (st bu la : List NamedEntry) (ap : List ApiEntry) (dy : List NamedEntry)
    (rids : List String) (res : CleanupResults)
    (h : cleanup_resources del (ReadResult.parsed (mkReport st bu la ap dy))
      rids = CleanupOutcome.completed res) :
    res = (cleanupLoop del (mkReport st bu la ap dy) rids emptyResults).1 := by
  have h' : (match cleanupLoop del (mkReport st bu la ap dy) rids emptyResults with
    | (res', none) => CleanupOutcome.completed res'
    | (res', some e) => CleanupOutcome.crashed res' e) =
      CleanupOutcome.completed res := h
  split at h'
  next res' heq =>
    injection h' with h'
    rw [heq, ← h']
  next res' e heq => exact CleanupOutcome.noConfusion h'

theorem cleanup_completed_count (del : String → String → Bool)
    (st bu la : List NamedEntry) (ap : List ApiEntry) (dy : List NamedEntry)
    (rids : List String) (res : CleanupResults)
    (h : cleanup_resources del (ReadResult.parsed (mkReport st bu la ap dy))
      rids = CleanupOutcome.completed res) (k x : String) :
    attemptCount res (k, x) =
      countEq rids x * bucketMatches st bu la ap dy k x := by
  rw [cleanup_completed_results del st bu la ap dy rids res h]
  rw [(cleanupLoop_mkReport del st bu la ap dy rids emptyResults).2 k x]
  rw [show attemptCount emptyResults (k, x) = 0 from rfl, Nat.zero_add]

/-- Claim C1 (amended): for the stack, bucket, api-gateway and table kinds a
resource is recorded as a Finding only if its name contains the marker
substring `'serverless'` case-insensitively; compute functions are exempt —
`discover_lambdas` applies no naming predicate, so a function Finding is
produced from age and activity alone (see the counterexample). -/
theorem C1_theorem :
    (∀ (cutoff : PyDateTime) (sl : List StackSummary) (g : StackFinding),
      g ∈ discover_stacks cutoff sl → hasMarker g.name = true) ∧
    (∀ (cutoff : PyDateTime) (bl : List BucketInfo) (g : BucketFinding),
      g ∈ discover_s3_buckets cutoff bl → hasMarker g.name = true) ∧
    (∀ (cutoff : PyDateTime) (al : List RestApiInfo) (g : ApiFinding),
      g ∈ discover_api_gateways cutoff al → hasMarker g.name = true) ∧
    (∀ (cutoff : PyDateTime) (tl : List TableInfo) (g : TableFinding),
      g ∈ discover_dynamodb_tables cutoff tl → hasMarker g.name = true) := by
  refine ⟨fun cutoff sl g h => ?_, fun cutoff bl g h => ?_,
    fun cutoff al g h => ?_, fun cutoff tl g h => ?_⟩
  · obtain ⟨s, _, _, hm, _, hg⟩ := mem_discover_stacks h
    rw [hg]; exact hm
  · obtain ⟨b, _, hm, _, hg⟩ := mem_discover_s3_buckets h
    rw [hg]; exact hm
  · obtain ⟨a, _, hm, _, hg⟩ := mem_discover_api_gateways h
    rw [hg]; exact hm
  · obtain ⟨t, _, hm, _, hg⟩ := mem_discover_dynamodb_tables h
    rw [hg]; exact hm

/-- Claim C1 counterexample: an old, inactive Lambda function whose name
lacks the marker in any casing is still recorded as a Finding, refuting the
claim for the function kind. -/
theorem C1_counterexample :
    hasMarker lamNoMarker.functionName = false ∧
    discover_lambdas dtCutoff 0 cwZero [lamNoMarker] =
      Except.ok [mkLambdaFinding lamNoMarker] := by
  exact ⟨by decide, rfl⟩

/-- Claim C1 witness: a marker-bearing stack yields a Finding whose name
carries the marker. -/
theorem C1_witness : hasMarker (mkStackFinding stackMarker).name = true :=
  C1_theorem.1 dtCutoff [stackMarker] (mkStackFinding stackMarker) (by decide)

/-- Claim C2 (amended): only the missing-file case is handled gracefully —
the cleaner reports it and performs no deletions; a JSON decode failure
raises an uncaught exception before any deletion, and a missing `stacks`
bucket key raises an uncaught `KeyError` on the first supplied identifier
(later missing keys can crash after earlier buckets were already
processed — see the counterexample). -/
theorem C2_theorem :
    (∀ (del : String → String → Bool) (rids : List String),
      cleanup_resources del ReadResult.notFound rids =
        CleanupOutcome.fileNotFound) ∧
    (∀ (del : String → String → Bool) (rids : List String),
      cleanup_resources del ReadResult.badJson rids =
        CleanupOutcome.crashed emptyResults PyError.jsonDecodeError) ∧
    (∀ (del : String → String → Bool) (r : Report) (rid : String)
      (rest : List String), r.stacks_ = none →
      cleanup_resources del (ReadResult.parsed r) (rid :: rest) =
        CleanupOutcome.crashed emptyResults (PyError.keyError ("stacks"))) := by
  refine ⟨fun _ _ => rfl, fun _ _ => rfl, fun del r rid rest hst => ?_⟩
  obtain ⟨rst, rbu, rla, rap, rdy⟩ := r
  change rst = none at hst
  subst hst
  rfl

/-- Claim C2 counterexample: with a report whose `lambdas` key is absent, the
cleaner crashes with an uncaught `KeyError` after having already attempted a
stack deletion — it neither avoids deletion attempts nor avoids crashing. -/
theorem C2_counterexample :
    cleanup_resources delTrue (ReadResult.parsed rMissingLambdas)
      [("serverless-app-dev")] =
    CleanupOutcome.crashed
      ⟨[(("stack"), ("serverless-app-dev"))], []⟩
      (PyError.keyError ("lambdas")) := rfl

/-- Claim C2 witness: a report missing its `stacks` key crashes immediately
with no deletion attempts. -/
theorem C2_witness :
    cleanup_resources delTrue (ReadResult.parsed rNoStacks) [("any-id")] =
      CleanupOutcome.crashed emptyResults (PyError.keyError ("stacks")) :=
  C2_theorem.2.2 delTrue rNoStacks ("any-id") [] rfl

/-- Claim C3: for valid instants, `is_resource_old` on a datetime is true
exactly when the timestamp is strictly earlier than the cutoff instant, and
a timestamp at exactly the cutoff instant is not old. -/
theorem C3_theorem (t age_threshold_date : PyDateTime) (ht : t.valid = true)
    (hc : age_threshold_date.valid = true) :
    (is_resource_old (Timestamp.dt t) age_threshold_date = some true ↔
      instantKey t < instantKey age_threshold_date) ∧
    (instantKey t = instantKey age_threshold_date →
      is_resource_old (Timestamp.dt t) age_threshold_date = some false) := by
  have hlt := pyDateTimeLt_iff_instantKey ht hc
  constructor
  · constructor
    · intro h
      injection h with h
      exact hlt.mp h
    · intro h
      show some (pyDateTimeLt t age_threshold_date) = some true
      rw [hlt.mpr h]
  · intro heq
    cases hb : pyDateTimeLt t age_threshold_date
    · show some (pyDateTimeLt t age_threshold_date) = some false
      rw [hb]
    · exact absurd (hlt.mp hb) (by omega)

/-- Claim C3 witness: a 2020 instant is old relative to a 2024 cutoff, and
the boundary case is excluded. -/
theorem C3_witness :
    (is_resource_old (Timestamp.dt dtOld) dtCutoff = some true ↔
      instantKey dtOld < instantKey dtCutoff) ∧
    (instantKey dtOld = instantKey dtCutoff →
      is_resource_old (Timestamp.dt dtOld) dtCutoff = some false) :=
  C3_theorem dtOld dtCutoff (by decide) (by decide)

/-- Claim C4: a function whose CloudWatch metrics query fails is never
recorded as a Finding, even when it satisfies the age condition — every
produced Finding's name differs from that function's name (fail-closed). -/
theorem C4_theorem (age_threshold_date : PyDateTime)
    (lambda_invocation_threshold : Int) (cw : String → Option (List Rat))
    (fns : List LambdaFunctionInfo) (out : List LambdaFinding)
    (f : LambdaFunctionInfo)
    (h : discover_lambdas age_threshold_date lambda_invocation_threshold cw
      fns = .ok out)
    (hf : f ∈ fns) (hfail : cw f.functionName = none) :
    ∀ g ∈ out, g.name ≠ f.functionName := by
  intro g hg heq
  obtain ⟨f', _, _, ⟨dps, hcw, _⟩, hgf⟩ := mem_discover_lambdas h hg
  rw [hgf] at heq
  rw [show (mkLambdaFinding f').name = f'.functionName from rfl] at heq
  rw [heq, hfail] at hcw
  exact Option.noConfusion hcw

/-- Claim C4 witness: in a listing with one metrics-healthy and one
metrics-failing function, the produced Finding is not the failing one. -/
theorem C4_witness : (mkLambdaFinding lamGood).name ≠ lamBad.functionName :=
  C4_theorem dtCutoff 0 cwPick [lamGood, lamBad] [mkLambdaFinding lamGood]
    lamBad rfl (by decide) rfl (mkLambdaFinding lamGood) (by decide)

/-- Claim C5 (amended): the number of deletion attempts recorded for a kind
and identifier equals (occurrences of the identifier in the caller-supplied
list) × (matching entries in that kind's report bucket) — so a duplicated
identifier in the list, or duplicate same-named entries within one bucket,
each produce additional attempts rather than exactly one. -/
theorem C5_theorem (del : String → String → Bool)
    (st bu la : List NamedEntry) (ap : List ApiEntry) (dy : List NamedEntry)
    (rids : List String) (res : CleanupResults) (k x : String)
    (h : cleanup_resources del (ReadResult.parsed (mkReport st bu la ap dy))
      rids = CleanupOutcome.completed res) :
    attemptCount res (k, x) =
      countEq rids x * bucketMatches st bu la ap dy k x :=
  cleanup_completed_count del st bu la ap dy rids res h k x

/-- Claim C5 counterexample: supplying the same identifier twice produces two
deletion attempts for the single matching stack entry, not exactly one. -/
theorem C5_counterexample :
    cleanup_resources delTrue
      (ReadResult.parsed (mkReport [⟨"serverless-app-dev"⟩] [] [] [] []))
      [("serverless-app-dev"), ("serverless-app-dev")] =
    CleanupOutcome.completed
      ⟨[(("stack"), ("serverless-app-dev")),
        (("stack"), ("serverless-app-dev"))], []⟩ := rfl

/-- Claim C5 witness: one occurrence of an identifier and one matching stack
entry yield exactly `1 × 1` recorded attempts. -/
theorem C5_witness :
    attemptCount rsC5 ((("stack")), ("serverless-app-dev")) =
      countEq [("serverless-app-dev")] ("serverless-app-dev") *
        bucketMatches [⟨"serverless-app-dev"⟩] [] [] [] []
          ("stack") ("serverless-app-dev") :=
  C5_theorem delTrue [⟨"serverless-app-dev"⟩] [] [] [] []
    [("serverless-app-dev")] rsC5 ("stack") ("serverless-app-dev") rfl

/-- Claim C6 (amended): a caller-supplied flag value takes effect only when
it is nonzero; a supplied value of 0 is falsy under Python's `or` and is
replaced by the default exactly as an absent flag is (defaults: age 90,
invocation count 0, monitoring period 30). -/
theorem C6_theorem (age lam mon : Option Int) :
    ((∀ v : Int, v ≠ 0 → age = some v →
        (initThresholds age lam mon).age_threshold_days = v) ∧
      (age = none ∨ age = some 0 →
        (initThresholds age lam mon).age_threshold_days =
          DEFAULT_AGE_THRESHOLD_DAYS)) ∧
    ((∀ v : Int, v ≠ 0 → lam = some v →
        (initThresholds age lam mon).lambda_invocation_threshold = v) ∧
      (lam = none ∨ lam = some 0 →
        (initThresholds age lam mon).lambda_invocation_threshold =
          DEFAULT_LAMBDA_INVOCATION_THRESHOLD)) ∧
    ((∀ v : Int, v ≠ 0 → mon = some v →
        (initThresholds age lam mon).monitoring_period_days = v) ∧
      (mon = none ∨ mon = some 0 →
        (initThresholds age lam mon).monitoring_period_days =
          DEFAULT_MONITORING_PERIOD_DAYS)) := by
  refine ⟨⟨fun v hv hs => ?_, fun hd => ?_⟩, ⟨fun v hv hs => ?_, fun hd => ?_⟩,
    ⟨fun v hv hs => ?_, fun hd => ?_⟩⟩ <;>
    first
      | (subst hs; simp [initThresholds, pyOrDefault, hv])
      | (rcases hd with hd | hd <;> subst hd <;>
          simp [initThresholds, pyOrDefault])

/-- Claim C6 counterexample: an explicitly supplied age threshold of 0 days
does not take effect — the configuration falls back to the 90-day default,
so the age cutoff is not the run's start instant. -/
theorem C6_counterexample :
    (initThresholds (some 0) none none).age_threshold_days = 90 ∧
    ¬ (initThresholds (some 0) none none).age_threshold_days = 0 := by
  decide

/-- Claim C6 witness: a nonzero supplied age value takes effect while absent
and zero flags fall back to their defaults. -/
theorem C6_witness :
    (initThresholds (some 5) none (some 0)).age_threshold_days = 5 ∧
    (initThresholds (some 5) none (some 0)).lambda_invocation_threshold = 0 ∧
    (initThresholds (some 5) none (some 0)).monitoring_period_days = 30 :=
  ⟨(C6_theorem (some 5) none (some 0)).1.1 5 (by decide) rfl,
    (C6_theorem (some 5) none (some 0)).2.1.2 (Or.inl rfl),
    (C6_theorem (some 5) none (some 0)).2.2.2 (Or.inr rfl)⟩

/-- Claim C7: when a supplied identifier matches entries in several kind
buckets, an independent deletion attempt is recorded for every matching
kind, with no cross-kind deduplication. -/
theorem C7_theorem (del : String → String → Bool)
    (st bu la : List NamedEntry) (ap : List ApiEntry) (dy : List NamedEntry)
    (rids : List String) (res : CleanupResults) (x : String)
    (h : cleanup_resources del (ReadResult.parsed (mkReport st bu la ap dy))
      rids = CleanupOutcome.completed res)
    (hx : x ∈ rids) :
    ((∃ en ∈ st, en.name = x) → (("stack"), x) ∈ recordedAttempts res) ∧
    ((∃ en ∈ bu, en.name = x) → (("s3_bucket"), x) ∈ recordedAttempts res) ∧
    ((∃ en ∈ la, en.name = x) → (("lambda"), x) ∈ recordedAttempts res) ∧
    ((∃ en ∈ ap, en.id = x) → (("api_gateway"), x) ∈ recordedAttempts res) ∧
    ((∃ en ∈ dy, en.name = x) → (("dynamodb"), x) ∈ recordedAttempts res) := by
  have hc := cleanup_completed_count del st bu la ap dy rids res h
  have hrids : 0 < countEq rids x := countEq_pos.mpr hx
  have key : ∀ (k : String), 0 < bucketMatches st bu la ap dy k x →
      (k, x) ∈ recordedAttempts res := by
    intro k hb
    have hpos : 0 < attemptCount res (k, x) := by
      rw [hc k x]
      exact Nat.mul_pos hrids hb
    rw [attemptCount_eq_countEq] at hpos
    exact countEq_pos.mp hpos
  refine ⟨fun hex => key _ ?_, fun hex => key _ ?_, fun hex => key _ ?_,
    fun hex => key _ ?_, fun hex => key _ ?_⟩ <;>
    obtain ⟨en, hen, hname⟩ := hex
  · have hm : x ∈ st.map NamedEntry.name := List.mem_map.mpr ⟨en, hen, hname⟩
    unfold bucketMatches
    rw [if_pos rfl, if_neg (by decide), if_neg (by decide), if_neg (by decide),
      if_neg (by decide)]
    have := countEq_pos.mpr hm
    omega
  · have hm : x ∈ bu.map NamedEntry.name := List.mem_map.mpr ⟨en, hen, hname⟩
    unfold bucketMatches
    rw [if_neg (by decide), if_pos rfl, if_neg (by decide), if_neg (by decide),
      if_neg (by decide)]
    have := countEq_pos.mpr hm
    omega
  · have hm : x ∈ la.map NamedEntry.name := List.mem_map.mpr ⟨en, hen, hname⟩
    unfold bucketMatches
    rw [if_neg (by decide), if_neg (by decide), if_pos rfl, if_neg (by decide),
      if_neg (by decide)]
    have := countEq_pos.mpr hm
    omega
  · have hm : x ∈ ap.map ApiEntry.id := List.mem_map.mpr ⟨en, hen, hname⟩
    unfold bucketMatches
    rw [if_neg (by decide), if_neg (by decide), if_neg (by decide), if_pos rfl,
      if_neg (by decide)]
    have := countEq_pos.mpr hm
    omega
  · have hm : x ∈ dy.map NamedEntry.name := List.mem_map.mpr ⟨en, hen, hname⟩
    unfold bucketMatches
    rw [if_neg (by decide), if_neg (by decide), if_neg (by decide),
      if_neg (by decide), if_pos rfl]
    have := countEq_pos.mpr hm
    omega

/-- Claim C7 witness: the identifier `my-bucket` matches both an `s3_buckets`
entry and a `lambdas` entry, and one attempt per kind is recorded. -/
theorem C7_witness :
    (("s3_bucket"), ("my-bucket")) ∈ recordedAttempts rsC7 ∧
    (("lambda"), ("my-bucket")) ∈ recordedAttempts rsC7 := by
  have h := C7_theorem delTrue [] [⟨"my-bucket"⟩] [⟨"my-bucket"⟩] [] []
    [("my-bucket")] rsC7 ("my-bucket") rfl (by decide)
  exact ⟨h.2.1 ⟨⟨("my-bucket")⟩, by decide, rfl⟩,
    h.2.2.1 ⟨⟨("my-bucket")⟩, by decide, rfl⟩⟩

/-- Claim C9: an `api_gateways` entry matches a supplied identifier only by
its `id` field — if no entry's `id` equals the identifier then no
API-gateway deletion attempt is recorded, regardless of the `name` fields. -/
theorem C9_theorem (del : String → String → Bool)
    (st bu la : List NamedEntry) (ap : List ApiEntry) (dy : List NamedEntry)
    (rids : List String) (res : CleanupResults) (x : String)
    (h : cleanup_resources del (ReadResult.parsed (mkReport st bu la ap dy))
      rids = CleanupOutcome.completed res)
    (hni : ∀ en ∈ ap, en.id ≠ x) :
    (("api_gateway"), x) ∉ recordedAttempts res := by
  intro hmem
  have hc := cleanup_completed_count del st bu la ap dy rids res h
    ("api_gateway") x
  have hz : countEq (ap.map ApiEntry.id) x = 0 := by
    by_contra hne
    obtain ⟨en, hen, hid⟩ :=
      List.mem_map.mp (countEq_pos.mp (Nat.pos_of_ne_zero hne))
    exact hni en hen hid
  have hb : bucketMatches st bu la ap dy ("api_gateway") x = 0 := by
    unfold bucketMatches
    rw [if_neg (by decide), if_neg (by decide), if_neg (by decide),
      if_pos rfl, if_neg (by decide), hz]
  have hzero : attemptCount res ((("api_gateway")), x) = 0 := by
    rw [hc, hb, Nat.mul_zero]
  have hpos := countEq_pos.mpr hmem
  rw [← attemptCount_eq_countEq] at hpos
  omega

/-- Claim C9 witness: an API-gateway entry whose `name` equals the supplied
identifier but whose `id` does not produces no API-gateway attempt. -/
theorem C9_witness :
    (("api_gateway"), ("serverless-api")) ∉ recordedAttempts emptyResults :=
  C9_theorem delTrue [] [] [] [⟨"abc123", "serverless-api"⟩] []
    [("serverless-api")] emptyResults ("serverless-api") rfl (by decide)

/-- Claim C8: for every valid instant, `is_resource_old` gives the same
result whether the timestamp is supplied as the datetime itself or as its
ISO-8601 string with the trailing `Z` UTC marker. -/
theorem C8_theorem (d age_threshold_date : PyDateTime) (hd : d.valid = true) :
    is_resource_old (Timestamp.str (isoformatZ d)) age_threshold_date =
      is_resource_old (Timestamp.dt d) age_threshold_date := by
  show (fromisoformat (pyReplaceZ (isoformatZ d))).map
      (fun x => pyDateTimeLt x age_threshold_date) =
    some (pyDateTimeLt d age_threshold_date)
  rw [fromiso_roundtrip d hd]
  rfl

/-- Claim C8 witness: the 2020 example instant and its `Z`-suffixed string
agree under the age predicate. -/
theorem C8_witness :
    is_resource_old (Timestamp.str (isoformatZ dtOld)) dtCutoff =
      is_resource_old (Timestamp.dt dtOld) dtCutoff :=
  C8_theorem dtOld dtCutoff (by decide)

/-- Claim C10: every stack Finding has a status different from
`DELETE_COMPLETE` — such stacks are filtered out before the marker and age
checks. -/
theorem C10_theorem (age_threshold_date : PyDateTime)
    (sl : List StackSummary) (g : StackFinding)
    (h : g ∈ discover_stacks age_threshold_date sl) :
    g.status ≠ ("DELETE_COMPLETE") := by
  obtain ⟨s, _, hstat, _, _, hg⟩ := mem_discover_stacks h
  rw [hg]
  exact hstat

/-- Claim C10 witness: the example stack Finding's status is not
`DELETE_COMPLETE`. -/
theorem C10_witness : (mkStackFinding stackMarker).status ≠ ("DELETE_COMPLETE") :=
  C10_theorem dtCutoff [stackMarker] (mkStackFinding stackMarker) (by decide)
